import Mathlib

/-!
Verification of the EMO Bridge voice-session engine (`app/backend.py`).

The backend's turn-taking engine is embedded shallowly:

* recognized text is a `List Char` (`Text`), normalized exactly as the source
  does with `.lower().strip()` (ASCII lowering, whitespace trimming);
* one iteration of the `while self.running` body of
  `EMOBridgeBackend._voice_loop` is the pure function `voiceCycle`, taking the
  outcome of the external recognizer and generator calls as parameters;
* `EMOBridgeBackend._process_barge_in` and
  `EMOBridgeBackend._on_speech_detected` are `process_barge_in` and
  `on_speech_detected`;
* `EMOBridgeBackend.stop_chat` is `stop_chat`;
* side effects (status callbacks, the Gemini call, TTS playback, MQTT
  publish, thread joins, interrupt-event writes) are recorded as an explicit
  `Event` trace, and exceptions of the Python code are values of `Exn`
  threaded through `Except` so that each `try/except` of the source becomes an
  explicit, checkable handler chain.
-/

namespace EMOBridge

/-- Characters of a recognized / generated piece of text. -/
abbrev Text := List Char

/-- Python `str.lower()` on the ASCII range (the only range the engine's
keywords and sentinels use). -/
def lowerText (t : Text) : Text := t.map Char.toLower

/-- Whitespace test used by Python `str.strip()`. -/
def isSpaceChar (c : Char) : Bool := c.isWhitespace

/-- Python `str.strip()`: remove leading and trailing whitespace. -/
def stripText (t : Text) : Text :=
  ((t.dropWhile isSpaceChar).reverse.dropWhile isSpaceChar).reverse

/-- `recognize_google(audio).lower().strip()` applied to the raw recognized
string (backend.py lines 264 and 376). -/
def normalize (s : String) : Text := stripText (lowerText s.toList)

/-- Python `text.replace(pat, "", 1)`: delete the first occurrence of `pat`
in `text` (the source only calls it when `text.startswith(pat)`). -/
def replaceFirstEmpty : Text → Text → Text
  | [], _ => []
  | c :: rest, pat =>
    if pat.isPrefixOf (c :: rest) then (c :: rest).drop pat.length
    else c :: replaceFirstEmpty rest pat

/-- The quit phrases of `text in ["quit", "exit", "stop", "end"]`
(backend.py lines 304 and 380). -/
def quitPhrases : List Text :=
  ["quit".toList, "exit".toList, "stop".toList, "end".toList]

/-- Ghost marker recording which arm of the persona-switch `if/elif`
(backend.py lines 311-319 and 387-395) fired. -/
inductive SwitchBranch
  | emoBranch
  | emusinioBranch
  deriving DecidableEq

/-- Result of the persona-switch block. -/
structure RouteResult where
  persona : String
  text : Text
  branch : Option SwitchBranch
  deriving DecidableEq

/-- The persona-switch block shared verbatim by `_voice_loop`
(lines 387-395) and `_process_barge_in` (lines 311-319):
`if text.startswith("emo"): persona = "EMO"; text = text.replace("emo", "", 1).strip()`
`elif text.startswith("emusinio"): persona = "EMUSINIO"; text = text.replace("emusinio", "", 1).strip()`. -/
def personaSwitch (persona : String) (text : Text) : RouteResult :=
  if "emo".toList.isPrefixOf text then
    { persona := "EMO"
      text := stripText (replaceFirstEmpty text "emo".toList)
      branch := some .emoBranch }
  else if "emusinio".toList.isPrefixOf text then
    { persona := "EMUSINIO"
      text := stripText (replaceFirstEmpty text "emusinio".toList)
      branch := some .emusinioBranch }
  else
    { persona := persona, text := text, branch := none }

/-- `EMOBridgeBackend.get_persona_instruction` (backend.py lines 108-126). -/
def get_persona_instruction (persona : String) : String :=
  if persona == "EMO" then
    "Speak in a playful, casual tone. Keep replies short, friendly, sometimes with emojis or fun expressions."
  else if persona == "EMUSINIO" then
    "Speak in a wise, formal, and calm tone. Use full sentences, no emojis, and sound like a mentor."
  else
    "Respond in a helpful, concise manner."

/-- The mutable backend attributes that the engine's control flow reads and
writes (backend.py lines 31-41): `running`, `persona`, whether
`self.model` is non-`None`, whether `self.mqtt_client` is non-`None`, the
`interrupt_event` flag, and the `speaking` flag. -/
structure BackendState where
  running : Bool
  persona : String
  hasModel : Bool
  mqttConnected : Bool
  interruptSet : Bool
  speaking : Bool
  deriving DecidableEq

/-- Observable effects of the engine, recorded in program order.  `status s`
is a `status_callback(s)` invocation; `generate` is the
`model.generate_content` call (carrying the persona, its instruction text and
the user text that the prompt f-string interpolates); the remaining
constructors record TTS playback, monitor lifecycle, interrupt-event writes,
thread joins (with their timeout in milliseconds, `none` = unbounded), the
MQTT publish, `time.sleep` (milliseconds), and the farewell TTS of
`stop_chat`. -/
inductive Event
  | status (s : String)
  | generate (persona instruction : String) (userText : Text)
  | clearInterrupt
  | setInterrupt
  | setSpeaking (b : Bool)
  | startTTS (text : Text)
  | startMonitor
  | stopMonitor
  | joinTTS (timeoutMs : Option Nat)
  | joinSessionThread (timeoutMs : Nat)
  | publish (msg : Text)
  | sleep (ms : Nat)
  | setRunningFalse
  | stopTTSEngine
  | farewellTTS
  deriving DecidableEq

/-- The Python exception values relevant to the engine.  `unknownValueError`
and `requestError` are `sr.UnknownValueError` / `sr.RequestError` from the
recognizer; `generationError` is the exception a failing
`model.generate_content` raises; `otherError` stands for any other
exception raised inside a cycle.  All four are subclasses of Python's
`Exception`. -/
inductive Exn
  | unknownValueError
  | requestError
  | generationError
  | otherError
  deriving DecidableEq

/-- Every modeled exception is (a subclass of) Python `Exception`, so an
`except Exception` clause catches all of them. -/
def isException (_ : Exn) : Bool := true

/-- Outcome of `self.recognizer.listen(...)` followed by
`recognize_google(audio)`: a raw recognized string, or one of the exceptions
the call can raise. -/
inductive RecogOutcome
  | ok (raw : String)
  | unknownValue
  | requestError
  | failure
  deriving DecidableEq

/-- Outcome of `self.model.generate_content(prompt)`: the raw reply text
(`response.text`), or a raised exception. -/
inductive GenOutcome
  | ok (rawReply : String)
  | failure
  deriving DecidableEq

/-- Ghost marker: which of the two session-ending checks fired — the
quit-phrase check on the user's text, or the `reply == "QUIT"` check on the
generator's reply. -/
inductive ExitVia
  | quitPhrase
  | quitReply
  deriving DecidableEq

/-- `EMOBridgeBackend._speak` (backend.py lines 180-204), as its trace:
clear the interrupt event, set `speaking`, start the TTS thread, start the
barge-in background listener, block on the TTS thread (no timeout), stop
the listener, reset `speaking`. -/
def speakEvents (text : Text) : List Event :=
  [.clearInterrupt, .setSpeaking true, .startTTS text, .startMonitor,
   .joinTTS none, .stopMonitor, .setSpeaking false]

/-- State effect of `_speak`: the interrupt event was cleared for this
playback and `speaking` is `false` again on return.  (A concurrent monitor
callback that sets the event during playback is modeled separately by
`on_speech_detected`.) -/
def speakState (st : BackendState) : BackendState :=
  { st with interruptSet := false, speaking := false }

/-- Result of one iteration of the `while self.running` body of
`_voice_loop`: the state after the iteration, the emitted events, whether
the iteration executed `break`, which session-ending check (if any) fired,
and the exception, if any, that escaped the iteration's `except` clauses. -/
structure CycleResult where
  state : BackendState
  events : List Event
  brk : Bool
  exitVia : Option ExitVia
  escaped : Option Exn
  deriving DecidableEq

/-- The `try:` body of one `_voice_loop` iteration (backend.py lines
365-440), before the `except` clauses are applied: returns the state and
events accumulated up to normal completion or up to the raise, and either
`.ok (brk, exitVia)` or the raised exception. -/
def cycleTryBody (st : BackendState) (recog : RecogOutcome) (gen : GenOutcome) :
    BackendState × List Event × Except Exn (Bool × Option ExitVia) :=
  let evs0 : List Event := [.status "Listening"]
  match recog with
  | .unknownValue => (st, evs0, .error .unknownValueError)
  | .requestError => (st, evs0, .error .requestError)
  | .failure => (st, evs0, .error .otherError)
  | .ok raw =>
    let text := normalize raw
    if text ∈ quitPhrases then
      ({ st with running := false }, evs0 ++ [.status "Idle"], .ok (true, some .quitPhrase))
    else
      let r := personaSwitch st.persona text
      let st1 := { st with persona := r.persona }
      if r.text = [] ∨ st1.hasModel = false then
        (st1, evs0, .ok (false, none))
      else
        let instruction := get_persona_instruction st1.persona
        let evs1 := evs0 ++ [.generate st1.persona instruction r.text]
        match gen with
        | .failure => (st1, evs1, .error .generationError)
        | .ok rawReply =>
          let reply := stripText rawReply.toList
          if reply = "QUIT".toList then
            ({ st1 with running := false }, evs1 ++ [.status "Idle"], .ok (true, some .quitReply))
          else
            let st2 := speakState st1
            let evs2 := evs1 ++ [.status "Speaking"] ++ speakEvents reply
              ++ (if st1.mqttConnected then [.publish reply] else []) ++ [.sleep 500]
            (st2, evs2, .ok (false, none))

/-- One full iteration of `_voice_loop`'s `while` body, `except` clauses
included (backend.py lines 364-455): `except sr.UnknownValueError` prints
and continues, `except sr.RequestError` surfaces status `Error`,
`except Exception` surfaces status `Error` and sleeps one second.  An
exception no clause catches would escape in `escaped`. -/
def voiceCycle (st : BackendState) (recog : RecogOutcome) (gen : GenOutcome) :
    CycleResult :=
  match cycleTryBody st recog gen with
  | (st', evs, .ok (brk, via)) =>
    { state := st', events := evs, brk := brk, exitVia := via, escaped := none }
  | (st', evs, .error e) =>
    if e = .unknownValueError then
      { state := st', events := evs, brk := false, exitVia := none, escaped := none }
    else if e = .requestError then
      { state := st', events := evs ++ [.status "Error"], brk := false,
        exitVia := none, escaped := none }
    else if isException e then
      { state := st', events := evs ++ [.status "Error", .sleep 1000], brk := false,
        exitVia := none, escaped := none }
    else
      { state := st', events := evs, brk := false, exitVia := none, escaped := some e }

/-- The `while self.running` loop of `_voice_loop`, run over a list of
per-iteration external outcomes (the supply of recognizer/generator
results). -/
def voiceLoopAux : BackendState → List (RecogOutcome × GenOutcome) →
    BackendState × List Event
  | st, [] => (st, [])
  | st, (r, g) :: rest =>
    if st.running then
      let c := voiceCycle st r g
      if c.brk then (c.state, c.events)
      else
        let (st', evs') := voiceLoopAux c.state rest
        (st', c.events ++ evs')
    else (st, [])

/-- `_voice_loop` (backend.py lines 360-459): the `while` loop followed by
the final `status_callback("Idle")` once the loop ends. -/
def voice_loop (st : BackendState) (ins : List (RecogOutcome × GenOutcome)) :
    BackendState × List Event :=
  let (st', evs) := voiceLoopAux st ins
  (st', evs ++ [.status "Idle"])

/-- Result of `_process_barge_in`: final state, emitted events, which
session-ending check (if any) fired, and the exception (if any) the body
raised — `_process_barge_in` has no `try` of its own, so `raised` propagates
to its caller `_on_speech_detected`. -/
structure BargeInResult where
  state : BackendState
  events : List Event
  exitVia : Option ExitVia
  raised : Option Exn
  deriving DecidableEq

/-- `EMOBridgeBackend._process_barge_in` (backend.py lines 290-358).  The
initial `joinTTS` is guarded in the source by the TTS thread being alive;
it is recorded unconditionally here.  The body is the same
quit-check / persona-switch / generate / QUIT-check / speak / publish
sequence as `_voice_loop`, minus the listening step. -/
def process_barge_in (st : BackendState) (text : Text) (gen : GenOutcome) :
    BargeInResult :=
  let evs0 : List Event := [.joinTTS (some 1000), .status "Listening"]
  if text ∈ quitPhrases then
    { state := { st with running := false }, events := evs0 ++ [.status "Idle"],
      exitVia := some .quitPhrase, raised := none }
  else
    let r := personaSwitch st.persona text
    let st1 := { st with persona := r.persona }
    if r.text = [] ∨ st1.hasModel = false then
      { state := st1, events := evs0, exitVia := none, raised := none }
    else
      let instruction := get_persona_instruction st1.persona
      let evs1 := evs0 ++ [.generate st1.persona instruction r.text]
      match gen with
      | .failure => { state := st1, events := evs1, exitVia := none,
                      raised := some .generationError }
      | .ok rawReply =>
        let reply := stripText rawReply.toList
        if reply = "QUIT".toList then
          { state := { st1 with running := false }, events := evs1 ++ [.status "Idle"],
            exitVia := some .quitReply, raised := none }
        else
          { state := speakState st1,
            events := evs1 ++ [.status "Speaking"] ++ speakEvents reply
              ++ (if st1.mqttConnected then [.publish reply] else []),
            exitVia := none, raised := none }

/-- The `except Exception as e: print(...)` clause of `_on_speech_detected`
(backend.py lines 287-288), applied to the exception (if any) the `try`
body raised: the exception it catches. -/
def exceptExceptionCaught (raised : Option Exn) : Option Exn :=
  match raised with
  | none => none
  | some e => if isException e then some e else none

/-- The exception (if any) that escapes past the `except Exception` clause
of `_on_speech_detected`. -/
def exceptExceptionEscaped (raised : Option Exn) : Option Exn :=
  match raised with
  | none => none
  | some e => if isException e then none else some e

/-- Result of the `_on_speech_detected` recognizer callback: final state,
emitted events, whether `_process_barge_in` was invoked (the utterance was
forwarded to the routing logic), which session-ending check (if any) fired
there, the exception its `except Exception` clause caught (if any), and the
exception (if any) that escaped the callback. -/
structure MonitorResult where
  state : BackendState
  events : List Event
  forwarded : Bool
  exitVia : Option ExitVia
  caught : Option Exn
  escaped : Option Exn
  deriving DecidableEq

/-- `EMOBridgeBackend._on_speech_detected` (backend.py lines 255-288): if
not speaking, return; otherwise recognize the snippet, and on non-empty
text set the interrupt event, stop a (fresh) TTS engine, surface status
`Interrupted`, and call `_process_barge_in`.  `except sr.UnknownValueError`
ignores the snippet; `except Exception` prints the error and swallows it —
no status is emitted for it. -/
def on_speech_detected (st : BackendState) (recog : RecogOutcome) (gen : GenOutcome) :
    MonitorResult :=
  if st.speaking = false then
    { state := st, events := [], forwarded := false, exitVia := none,
      caught := none, escaped := none }
  else
    match recog with
    | .unknownValue =>
      { state := st, events := [], forwarded := false, exitVia := none,
        caught := none, escaped := none }
    | .requestError =>
      if isException Exn.requestError then
        { state := st, events := [], forwarded := false, exitVia := none,
          caught := some .requestError, escaped := none }
      else
        { state := st, events := [], forwarded := false, exitVia := none,
          caught := none, escaped := some .requestError }
    | .failure =>
      if isException Exn.otherError then
        { state := st, events := [], forwarded := false, exitVia := none,
          caught := some .otherError, escaped := none }
      else
        { state := st, events := [], forwarded := false, exitVia := none,
          caught := none, escaped := some .otherError }
    | .ok raw =>
      let text := normalize raw
      if text = [] then
        { state := st, events := [], forwarded := false, exitVia := none,
          caught := none, escaped := none }
      else
        let st1 := { st with interruptSet := true }
        let evs1 : List Event := [.setInterrupt, .stopTTSEngine, .status "Interrupted"]
        let b := process_barge_in st1 text gen
        { state := b.state, events := evs1 ++ b.events, forwarded := true,
          exitVia := b.exitVia,
          caught := exceptExceptionCaught b.raised,
          escaped := exceptExceptionEscaped b.raised }

/-- The event trace of `EMOBridgeBackend.stop_chat` (backend.py lines
139-178), parametrized by whether a session thread exists, whether the TTS
thread is alive, and whether a background listener is active (the source
guards the corresponding steps on these runtime conditions). -/
def stop_chat_events (hasThread ttsAlive hasListener : Bool) : List Event :=
  [.setRunningFalse]
  ++ (if hasListener then [.stopMonitor] else [])
  ++ [.setInterrupt]
  ++ (if hasThread then [.joinSessionThread 1000] else [])
  ++ (if ttsAlive then [.joinTTS (some 1000)] else [])
  ++ [.setSpeaking false, .farewellTTS]

/-- `EMOBridgeBackend.stop_chat`: sets `running = False`, stops the
background listener, sets the interrupt event, joins the session and TTS
threads with a 1-second timeout each, resets `speaking`, then plays the
farewell inside a `try/except Exception` that swallows any TTS failure
(`farewellExn`).  Returns (state, events, escaped exception). -/
def stop_chat (st : BackendState) (hasThread ttsAlive hasListener : Bool)
    (farewellExn : Option Exn) : BackendState × List Event × Option Exn :=
  let st' := { st with running := false, interruptSet := true, speaking := false }
  let evs := stop_chat_events hasThread ttsAlive hasListener
  match farewellExn with
  | none => (st', evs, none)
  | some e => (st', evs, if isException e then none else some e)

/-- The status strings of a trace, in order. -/
def statuses (evs : List Event) : List String :=
  evs.filterMap fun e => match e with | .status s => some s | _ => none

/-- Whether a trace contains a `generate_content` call. -/
def callsGenerator (evs : List Event) : Bool :=
  evs.any fun e => match e with | .generate _ _ _ => true | _ => false

/-- Whether a trace starts a TTS playback. -/
def startsPlayback (evs : List Event) : Bool :=
  evs.any fun e => match e with | .startTTS _ => true | _ => false

/-- Every thread join in the trace carries a finite timeout (the unbounded
`tts_thread.join()` of `_speak` would fail this; the joins of `stop_chat`
all carry a 1-second timeout). -/
def joinsHaveTimeout (evs : List Event) : Bool :=
  evs.all fun e => match e with
    | .joinTTS o => o.isSome
    | _ => true

/-- Number of `interrupt_event.clear()` calls in a trace. -/
def countClear : List Event → Nat
  | [] => 0
  | .clearInterrupt :: rest => countClear rest + 1
  | _ :: rest => countClear rest

/-- Discipline of `interrupt_event.clear()` over a trace: the clear occurs
only as the first step of a `_speak` playback block (`speakEvents`), never
elsewhere — in particular never mid-playback and never between one
playback's end and the next playback's start. -/
inductive ClearDisciplined : List Event → Prop
  | nil : ClearDisciplined []
  | skip (e : Event) (rest : List Event) (h : e ≠ .clearInterrupt)
      (hr : ClearDisciplined rest) : ClearDisciplined (e :: rest)
  | block (t : Text) (rest : List Event) (hr : ClearDisciplined rest) :
      ClearDisciplined (speakEvents t ++ rest)

/-- A concrete running, speaking backend state used by the witnesses. -/
def demoState : BackendState :=
  { running := true, persona := "EMO", hasModel := true, mqttConnected := false,
    interruptSet := false, speaking := true }

/-- A concrete idle backend state (no active session) used by the
witnesses. -/
def idleState : BackendState :=
  { running := false, persona := "EMO", hasModel := true, mqttConnected := false,
    interruptSet := false, speaking := false }

/-! ### Helper lemmas about the text primitives and the persona switch -/

theorem replaceFirstEmpty_of_isPrefixOf (t pat : Text) (hne : pat ≠ [])
    (h : pat.isPrefixOf t = true) :
    replaceFirstEmpty t pat = t.drop pat.length := by
  cases t with
  | nil =>
    cases pat with
    | nil => exact absurd rfl hne
    | cons p ps => simp [List.isPrefixOf] at h
  | cons c rest => simp only [replaceFirstEmpty, h, if_true]

/-- No input starts with `emusinio` and also with `emo`: the third
characters differ. -/
theorem emo_not_prefixOf_of_emusinio (t : Text)
    (h : "emusinio".toList.isPrefixOf t = true) :
    "emo".toList.isPrefixOf t = false := by
  rw [List.isPrefixOf_iff_prefix] at h
  obtain ⟨s, rfl⟩ := h
  rfl

theorem personaSwitch_emo (p : String) (t : Text)
    (h : "emo".toList.isPrefixOf t = true) :
    personaSwitch p t =
      { persona := "EMO", text := stripText (t.drop 3), branch := some .emoBranch } := by
  have h3 : replaceFirstEmpty t "emo".toList = t.drop 3 :=
    replaceFirstEmpty_of_isPrefixOf t "emo".toList (by decide) h
  simp only [personaSwitch, h, h3, if_true]

theorem personaSwitch_emusinio (p : String) (t : Text)
    (h : "emusinio".toList.isPrefixOf t = true) :
    personaSwitch p t =
      { persona := "EMUSINIO", text := stripText (t.drop 8),
        branch := some .emusinioBranch } := by
  have h1 := emo_not_prefixOf_of_emusinio t h
  have h8 : replaceFirstEmpty t "emusinio".toList = t.drop 8 :=
    replaceFirstEmpty_of_isPrefixOf t "emusinio".toList (by decide) h
  simp only [personaSwitch, h1, h, h8, if_true, Bool.false_eq_true, if_false]

/-- None of the four quit phrases starts with `emo` or `emusinio`, so the
quit check and the persona switch never compete for the same input. -/
theorem quitPhrases_no_switch (t : Text) (ht : t ∈ quitPhrases) :
    "emo".toList.isPrefixOf t = false ∧ "emusinio".toList.isPrefixOf t = false := by
  fin_cases ht <;> decide

theorem quitPhrase_ne_nil (t : Text) (ht : t ∈ quitPhrases) : t ≠ [] := by
  simp only [quitPhrases, List.mem_cons, List.not_mem_nil, or_false] at ht
  rcases ht with h | h | h | h <;> subst h <;> decide

/-- Status extraction distributes over trace concatenation. -/
theorem statuses_append (l1 l2 : List Event) :
    statuses (l1 ++ l2) = statuses l1 ++ statuses l2 :=
  List.filterMap_append l1 l2 _

/-- All modeled exceptions being `Exception` subclasses, the
`except Exception` clause of `_on_speech_detected` lets nothing escape. -/
theorem exceptExceptionEscaped_eq_none (o : Option Exn) :
    exceptExceptionEscaped o = none := by
  cases o <;> simp [exceptExceptionEscaped, isException]

/-- `_process_barge_in` never emits an `Error` status, whatever happens
inside it. -/
theorem barge_in_no_error_status (st : BackendState) (t : Text) (g : GenOutcome) :
    "Error" ∉ statuses (process_barge_in st t g).events := by
  cases g <;>
    simp only [process_barge_in] <;>
    split_ifs <;>
    simp [statuses, speakEvents]

/-- Every cycle iteration emits status `Listening` first, whatever its
inputs: the next cycle after any outcome re-enters `Listening`. -/
theorem voiceCycle_events_head (st : BackendState) (r : RecogOutcome) (g : GenOutcome) :
    (voiceCycle st r g).events.head? = some (.status "Listening") := by
  cases r <;> cases g <;>
    simp only [voiceCycle, cycleTryBody, isException] <;>
    split_ifs <;> simp_all

/-- Once `running` is false, the loop body never runs again and the loop
postlude emits the final `Idle` status. -/
theorem voice_loop_not_running (st : BackendState) (h : st.running = false)
    (ins : List (RecogOutcome × GenOutcome)) :
    voice_loop st ins = (st, [.status "Idle"]) := by
  cases ins <;> simp [voice_loop, voiceLoopAux, h]

theorem ClearDisciplined_append {l1 l2 : List Event}
    (h1 : ClearDisciplined l1) (h2 : ClearDisciplined l2) :
    ClearDisciplined (l1 ++ l2) := by
  induction h1 with
  | nil => exact h2
  | skip e rest h hr ih => exact .skip e _ h ih
  | block t rest hr ih =>
    rw [List.append_assoc]
    exact .block t _ ih

theorem ClearDisciplined_of_not_mem {l : List Event}
    (h : Event.clearInterrupt ∉ l) : ClearDisciplined l := by
  induction l with
  | nil => exact .nil
  | cons e rest ih =>
    refine .skip e rest ?_ (ih ?_)
    · intro he
      exact h (he ▸ List.mem_cons_self e rest)
    · intro hm
      exact h (List.mem_cons_of_mem e hm)

/-- The events of one `_voice_loop` iteration clear the interrupt event
only at the start of a playback block. -/
theorem voiceCycle_clear_disciplined (st : BackendState) (r : RecogOutcome)
    (g : GenOutcome) : ClearDisciplined (voiceCycle st r g).events := by
  cases r <;> cases g <;>
    simp only [voiceCycle, cycleTryBody, isException] <;>
    split_ifs <;>
    first
      | (apply ClearDisciplined_of_not_mem; simp; done)
      | (simp only [List.append_assoc]
         refine ClearDisciplined_append (ClearDisciplined_of_not_mem ?_)
           (ClearDisciplined_append (ClearDisciplined_of_not_mem ?_)
             (ClearDisciplined_append (ClearDisciplined_of_not_mem ?_)
               (ClearDisciplined.block _ _ (ClearDisciplined_of_not_mem ?_)))) <;>
           simp)

/-- The events of `_process_barge_in` clear the interrupt event only at
the start of a playback block. -/
theorem process_barge_in_clear_disciplined (st : BackendState) (t : Text)
    (g : GenOutcome) : ClearDisciplined (process_barge_in st t g).events := by
  cases g <;>
    simp only [process_barge_in] <;>
    split_ifs <;>
    first
      | (apply ClearDisciplined_of_not_mem; simp; done)
      | (simp only [List.append_assoc]
         refine ClearDisciplined_append (ClearDisciplined_of_not_mem ?_)
           (ClearDisciplined_append (ClearDisciplined_of_not_mem ?_)
             (ClearDisciplined_append (ClearDisciplined_of_not_mem ?_)
               (ClearDisciplined.block _ _ (ClearDisciplined_of_not_mem ?_)))) <;>
           simp)

/-- The events of the `_on_speech_detected` callback clear the interrupt
event only at the start of a playback block. -/
theorem on_speech_detected_clear_disciplined (st : BackendState)
    (r : RecogOutcome) (g : GenOutcome) :
    ClearDisciplined (on_speech_detected st r g).events := by
  rcases r with raw | _ | _ | _ <;>
    simp only [on_speech_detected, isException] <;>
    split_ifs <;>
    first
      | (apply ClearDisciplined_of_not_mem; simp; done)
      | (refine ClearDisciplined_append (ClearDisciplined_of_not_mem ?_)
           (process_barge_in_clear_disciplined _ _ _)
         simp)

/-- The whole `_voice_loop` trace clears the interrupt event only at
playback starts, across all its iterations. -/
theorem voice_loop_clear_disciplined (st : BackendState)
    (ins : List (RecogOutcome × GenOutcome)) :
    ClearDisciplined (voice_loop st ins).2 := by
  have aux : ∀ (l : List (RecogOutcome × GenOutcome)) (s : BackendState),
      ClearDisciplined (voiceLoopAux s l).2 := by
    intro l
    induction l with
    | nil => exact fun s => .nil
    | cons p rest ih =>
      intro s
      obtain ⟨r, g⟩ := p
      simp only [voiceLoopAux]
      split_ifs with hrun hbrk
      · exact voiceCycle_clear_disciplined s r g
      · rcases hl : voiceLoopAux (voiceCycle s r g).state rest with ⟨st2, evs2⟩
        have h2 := ih (voiceCycle s r g).state
        rw [hl] at h2
        exact ClearDisciplined_append (voiceCycle_clear_disciplined s r g) h2
      · exact .nil
  exact ClearDisciplined_append (aux ins st)
    (ClearDisciplined_of_not_mem (by simp))

/-! ### Claims -/

/-- Claim C1: the session terminates via the quit-phrase check — in both the
normal listen cycle and the barge-in path — if and only if the lowercased,
whitespace-trimmed utterance is exactly one of `quit`, `exit`, `stop`,
`end`; and when that check fires, `running` becomes false (and the loop
breaks). -/
theorem claim_C1_quit_phrase_exact_match (st : BackendState) (raw : String)
    (g : GenOutcome) (hspeak : st.speaking = true) :
    ((voiceCycle st (.ok raw) g).exitVia = some .quitPhrase ↔
      normalize raw ∈ quitPhrases)
    ∧ ((voiceCycle st (.ok raw) g).exitVia = some .quitPhrase →
        (voiceCycle st (.ok raw) g).state.running = false
        ∧ (voiceCycle st (.ok raw) g).brk = true)
    ∧ ((on_speech_detected st (.ok raw) g).exitVia = some .quitPhrase ↔
        normalize raw ∈ quitPhrases)
    ∧ ((on_speech_detected st (.ok raw) g).exitVia = some .quitPhrase →
        (on_speech_detected st (.ok raw) g).state.running = false) := by
  by_cases hq : normalize raw ∈ quitPhrases
  · have hne : ¬ (normalize raw = []) := quitPhrase_ne_nil _ hq
    simp [voiceCycle, cycleTryBody, on_speech_detected, process_barge_in, hq, hspeak, hne]
  · cases g <;>
      simp [voiceCycle, cycleTryBody, on_speech_detected, process_barge_in, isException,
        hspeak, hq] <;>
      split_ifs <;> simp_all

/-- Witness for claim C1 at the utterance `"  Quit "` (terminates via the
quit check after normalization) in the concrete state `demoState`. -/
theorem claim_C1_quit_phrase_exact_match_witness :
    ((voiceCycle demoState (.ok "  Quit ") .failure).exitVia = some .quitPhrase ↔
      normalize "  Quit " ∈ quitPhrases)
    ∧ ((voiceCycle demoState (.ok "  Quit ") .failure).exitVia = some .quitPhrase →
        (voiceCycle demoState (.ok "  Quit ") .failure).state.running = false
        ∧ (voiceCycle demoState (.ok "  Quit ") .failure).brk = true)
    ∧ ((on_speech_detected demoState (.ok "  Quit ") .failure).exitVia =
          some .quitPhrase ↔ normalize "  Quit " ∈ quitPhrases)
    ∧ ((on_speech_detected demoState (.ok "  Quit ") .failure).exitVia =
          some .quitPhrase →
        (on_speech_detected demoState (.ok "  Quit ") .failure).state.running = false) :=
  claim_C1_quit_phrase_exact_match demoState "  Quit " .failure rfl

/-- Claim C2: an utterance beginning with a persona keyword (`emo` or
`emusinio`, matched on the lowercased text) makes the routing logic switch
to the matched persona and strip exactly one leading occurrence of the
matched keyword (the `replace(kw, "", 1)` call deletes precisely the
leading occurrence), leaving the remaining text (whitespace-trimmed, as the
claim's own example shows); in particular `"emo tell me a joke"` yields
persona `EMO` and remaining text `"tell me a joke"`. -/
theorem claim_C2_persona_switch_strips_keyword (p : String) (t : Text) :
    ("emo".toList.isPrefixOf t = true →
      personaSwitch p t =
        { persona := "EMO", text := stripText (t.drop 3), branch := some .emoBranch }
      ∧ replaceFirstEmpty t "emo".toList = t.drop 3)
    ∧ ("emusinio".toList.isPrefixOf t = true →
      personaSwitch p t =
        { persona := "EMUSINIO", text := stripText (t.drop 8),
          branch := some .emusinioBranch }
      ∧ replaceFirstEmpty t "emusinio".toList = t.drop 8)
    ∧ personaSwitch p (normalize "emo tell me a joke") =
        { persona := "EMO", text := "tell me a joke".toList,
          branch := some .emoBranch } := by
  refine ⟨fun h => ⟨personaSwitch_emo p t h, ?_⟩,
    fun h => ⟨personaSwitch_emusinio p t h, ?_⟩, ?_⟩
  · exact replaceFirstEmpty_of_isPrefixOf t "emo".toList (by decide) h
  · exact replaceFirstEmpty_of_isPrefixOf t "emusinio".toList (by decide) h
  · rw [personaSwitch_emo p _ (by decide)]
    decide

/-- Claim C5 is false as stated: the code strips the generator's reply
(`reply = response.text.strip()`, line 414) before comparing with `QUIT`,
so the reply `" QUIT "` — which is not exactly `"QUIT"` — also ends the
session without playback. -/
theorem claim_C5_counterexample :
    " QUIT " ≠ "QUIT"
    ∧ (voiceCycle demoState (.ok "hello") (.ok " QUIT ")).exitVia = some .quitReply
    ∧ (voiceCycle demoState (.ok "hello") (.ok " QUIT ")).state.running = false
    ∧ "Idle" ∈ statuses (voiceCycle demoState (.ok "hello") (.ok " QUIT ")).events
    ∧ startsPlayback (voiceCycle demoState (.ok "hello") (.ok " QUIT ")).events
        = false := by
  decide

/-- Claim C5 (amended): in a cycle that reaches the generator, the session
ends (running set to false, status `Idle`) without invoking playback if and
only if the generator's reply equals `"QUIT"` after whitespace trimming
(case-sensitive); any other reply is spoken. -/
theorem claim_C5_amended_quit_reply (st : BackendState) (raw rawReply : String)
    (hq : normalize raw ∉ quitPhrases)
    (hne : (personaSwitch st.persona (normalize raw)).text ≠ [])
    (hm : st.hasModel = true) :
    (((voiceCycle st (.ok raw) (.ok rawReply)).exitVia = some .quitReply
      ∧ (voiceCycle st (.ok raw) (.ok rawReply)).state.running = false
      ∧ "Idle" ∈ statuses (voiceCycle st (.ok raw) (.ok rawReply)).events
      ∧ startsPlayback (voiceCycle st (.ok raw) (.ok rawReply)).events = false)
      ↔ stripText rawReply.toList = "QUIT".toList)
    ∧ (stripText rawReply.toList ≠ "QUIT".toList →
        startsPlayback (voiceCycle st (.ok raw) (.ok rawReply)).events = true) := by
  by_cases hr : stripText rawReply.toList = "QUIT".toList <;>
    simp [voiceCycle, cycleTryBody, hq, hne, hm, hr, statuses, startsPlayback,
      speakEvents] <;>
    split_ifs <;> simp_all

/-- Witness for the amended claim C5: recognized text `"hello"`, generator
reply `" QUIT\n "` (trims to `QUIT`), in the concrete state `demoState`. -/
theorem claim_C5_amended_quit_reply_witness :
    (((voiceCycle demoState (.ok "hello") (.ok " QUIT\n ")).exitVia = some .quitReply
      ∧ (voiceCycle demoState (.ok "hello") (.ok " QUIT\n ")).state.running = false
      ∧ "Idle" ∈ statuses (voiceCycle demoState (.ok "hello") (.ok " QUIT\n ")).events
      ∧ startsPlayback (voiceCycle demoState (.ok "hello") (.ok " QUIT\n ")).events
          = false)
      ↔ stripText " QUIT\n ".toList = "QUIT".toList)
    ∧ (stripText " QUIT\n ".toList ≠ "QUIT".toList →
        startsPlayback (voiceCycle demoState (.ok "hello") (.ok " QUIT\n ")).events
          = true) :=
  claim_C5_amended_quit_reply demoState "hello" " QUIT\n " (by decide) (by decide) rfl

/-- Claim C7 is false as stated: a generation failure surfaces the plain
status `"Error"` — the same status string a recognition-service failure
surfaces — and no `Error:NetworkConnectionLost` (or any other
distinguishable network-failure indicator) exists anywhere in the code. -/
theorem claim_C7_counterexample :
    statuses (voiceCycle demoState (.ok "hello") .failure).events =
      ["Listening", "Error"]
    ∧ "Error:NetworkConnectionLost" ∉
        statuses (voiceCycle demoState (.ok "hello") .failure).events
    ∧ statuses (voiceCycle demoState (.ok "hello") .failure).events =
        statuses (voiceCycle demoState .requestError .failure).events := by
  decide

/-- Claim C7 (amended): when the generation call fails in a cycle that
reaches it, the session surfaces the plain `Error` status (indistinguishable
from the recognition-service failure status; there is no
`Error:NetworkConnectionLost` indicator), skips playback, leaves
`running = true`, does not break, and the next cycle re-enters `Listening`. -/
theorem claim_C7_amended_generation_failure (st : BackendState) (raw : String)
    (hrun : st.running = true) (hm : st.hasModel = true)
    (hq : normalize raw ∉ quitPhrases)
    (hne : (personaSwitch st.persona (normalize raw)).text ≠ []) :
    "Error" ∈ statuses (voiceCycle st (.ok raw) .failure).events
    ∧ "Error:NetworkConnectionLost" ∉ statuses (voiceCycle st (.ok raw) .failure).events
    ∧ startsPlayback (voiceCycle st (.ok raw) .failure).events = false
    ∧ (voiceCycle st (.ok raw) .failure).state.running = true
    ∧ (voiceCycle st (.ok raw) .failure).brk = false
    ∧ ∀ (r : RecogOutcome) (g : GenOutcome),
        (voiceCycle (voiceCycle st (.ok raw) .failure).state r g).events.head? =
          some (.status "Listening") := by
    refine ⟨?_, ?_, ?_, ?_, ?_, fun r g => voiceCycle_events_head _ r g⟩ <;>
      simp [voiceCycle, cycleTryBody, isException, hq, hne, hm, hrun, statuses,
        startsPlayback]

/-- Witness for the amended claim C7 at recognized text `"hello"` in the
concrete state `demoState`. -/
theorem claim_C7_amended_generation_failure_witness :
    "Error" ∈ statuses (voiceCycle demoState (.ok "hello") .failure).events
    ∧ "Error:NetworkConnectionLost" ∉
        statuses (voiceCycle demoState (.ok "hello") .failure).events
    ∧ startsPlayback (voiceCycle demoState (.ok "hello") .failure).events = false
    ∧ (voiceCycle demoState (.ok "hello") .failure).state.running = true
    ∧ (voiceCycle demoState (.ok "hello") .failure).brk = false
    ∧ ∀ (r : RecogOutcome) (g : GenOutcome),
        (voiceCycle (voiceCycle demoState (.ok "hello") .failure).state r g).events.head?
          = some (.status "Listening") :=
  claim_C7_amended_generation_failure demoState "hello" rfl rfl (by decide) (by decide)

/-- Claim C10: when the remaining text is empty after a persona-switch
prefix is stripped, the cycle re-loops (no break, `running` unchanged)
without calling the response generator and without emitting any
`Generating` status — in both the normal cycle and the barge-in path. -/
theorem claim_C10_empty_after_switch (st : BackendState) (raw : String)
    (g : GenOutcome)
    (hq : normalize raw ∉ quitPhrases)
    (_hsw : (personaSwitch st.persona (normalize raw)).branch ≠ none)
    (he : (personaSwitch st.persona (normalize raw)).text = []) :
    callsGenerator (voiceCycle st (.ok raw) g).events = false
    ∧ "Generating" ∉ statuses (voiceCycle st (.ok raw) g).events
    ∧ (voiceCycle st (.ok raw) g).brk = false
    ∧ (voiceCycle st (.ok raw) g).state.running = st.running
    ∧ callsGenerator (process_barge_in st (normalize raw) g).events = false
    ∧ "Generating" ∉ statuses (process_barge_in st (normalize raw) g).events := by
  simp [voiceCycle, cycleTryBody, process_barge_in, hq, he, callsGenerator, statuses]

/-- Witness for claim C10 at the utterance `"emo"` (persona switch with
nothing after the keyword) in the concrete state `demoState`. -/
theorem claim_C10_empty_after_switch_witness :
    callsGenerator (voiceCycle demoState (.ok "emo") (.ok "x")).events = false
    ∧ "Generating" ∉ statuses (voiceCycle demoState (.ok "emo") (.ok "x")).events
    ∧ (voiceCycle demoState (.ok "emo") (.ok "x")).brk = false
    ∧ (voiceCycle demoState (.ok "emo") (.ok "x")).state.running = demoState.running
    ∧ callsGenerator (process_barge_in demoState (normalize "emo") (.ok "x")).events
        = false
    ∧ "Generating" ∉
        statuses (process_barge_in demoState (normalize "emo") (.ok "x")).events :=
  claim_C10_empty_after_switch demoState "emo" (.ok "x") (by decide) (by decide)
    (by decide)

/-- Claim C4 is false as stated: the code has no stop-phrase set at all.
`"quiet"` — one of the claim's stop phrases — is forwarded to the routing
logic, the generator is called and the reply is spoken; and `"stop"`
terminates the whole session via the quit-phrase check (`running` becomes
false, status `Idle`) instead of merely stopping playback and returning to
`Listening`. -/
theorem claim_C4_counterexample :
    (on_speech_detected demoState (.ok "quiet") (.ok "sure")).forwarded = true
    ∧ callsGenerator (on_speech_detected demoState (.ok "quiet") (.ok "sure")).events
        = true
    ∧ startsPlayback (on_speech_detected demoState (.ok "quiet") (.ok "sure")).events
        = true
    ∧ (on_speech_detected demoState (.ok "stop") (.ok "sure")).state.running = false
    ∧ "Idle" ∈ statuses (on_speech_detected demoState (.ok "stop") (.ok "sure")).events := by
  decide

/-- Claim C4 (amended): the monitor treats every non-empty barge-in
utterance alike — it raises the InterruptToken, surfaces `Interrupted`, and
forwards the utterance to the routing logic (`_process_barge_in`); there is
no stop-phrase filter.  In particular a quit phrase (such as `"stop"`)
then terminates the session via the quit check (`running = false`, status
`Idle`). -/
theorem claim_C4_amended_no_stop_phrase_filter (st : BackendState) (raw : String)
    (g : GenOutcome) (hspeak : st.speaking = true) (hne : normalize raw ≠ []) :
    .setInterrupt ∈ (on_speech_detected st (.ok raw) g).events
    ∧ (on_speech_detected st (.ok raw) g).forwarded = true
    ∧ "Interrupted" ∈ statuses (on_speech_detected st (.ok raw) g).events
    ∧ (normalize raw ∈ quitPhrases →
        (on_speech_detected st (.ok raw) g).state.running = false
        ∧ "Idle" ∈ statuses (on_speech_detected st (.ok raw) g).events) := by
  by_cases hq : normalize raw ∈ quitPhrases <;> cases g <;>
    simp [on_speech_detected, process_barge_in, isException, hspeak, hne, hq,
      statuses, speakEvents]

/-- Witness for the amended claim C4 at the barge-in utterance `"stop"` in
the concrete state `demoState`. -/
theorem claim_C4_amended_no_stop_phrase_filter_witness :
    .setInterrupt ∈ (on_speech_detected demoState (.ok "stop") (.ok "sure")).events
    ∧ (on_speech_detected demoState (.ok "stop") (.ok "sure")).forwarded = true
    ∧ "Interrupted" ∈
        statuses (on_speech_detected demoState (.ok "stop") (.ok "sure")).events
    ∧ (normalize "stop" ∈ quitPhrases →
        (on_speech_detected demoState (.ok "stop") (.ok "sure")).state.running = false
        ∧ "Idle" ∈
            statuses (on_speech_detected demoState (.ok "stop") (.ok "sure")).events) :=
  claim_C4_amended_no_stop_phrase_filter demoState "stop" (.ok "sure") rfl (by decide)

/-- Claim C6 is false as stated: on the barge-in re-entry path a failure is
caught (it does not escape), but it is only printed — no status update of
any kind is emitted for it.  Here the generation call inside
`_process_barge_in` raises; `_on_speech_detected`'s `except Exception`
catches it and the trace contains no `Error` status. -/
theorem claim_C6_counterexample :
    (process_barge_in { demoState with interruptSet := true } (normalize "quiet")
        .failure).raised = some .generationError
    ∧ (on_speech_detected demoState (.ok "quiet") .failure).caught =
        some .generationError
    ∧ (on_speech_detected demoState (.ok "quiet") .failure).escaped = none
    ∧ "Error" ∉ statuses (on_speech_detected demoState (.ok "quiet") .failure).events
    ∧ "Error:NetworkConnectionLost" ∉
        statuses (on_speech_detected demoState (.ok "quiet") .failure).events := by
  decide

/-- Claim C6 (amended): every failure raised inside a turn-taking cycle is
caught — none escapes the session thread, the monitor callback, or
`stop_chat`.  In the normal cycle every caught failure other than the
silently-retried `UnknownValueError` is converted into an `Error` status
update; on the barge-in path, however, caught failures produce no status
update at all (no `Error` status ever appears in a barge-in trace). -/
theorem claim_C6_amended_failures_caught :
    (∀ st r g, (voiceCycle st r g).escaped = none)
    ∧ (∀ st r g, (on_speech_detected st r g).escaped = none)
    ∧ (∀ st hT tA hL fe, (stop_chat st hT tA hL fe).2.2 = none)
    ∧ (∀ st r g e, (cycleTryBody st r g).2.2 = Except.error e →
        e ≠ .unknownValueError → "Error" ∈ statuses (voiceCycle st r g).events)
    ∧ (∀ st t g, "Error" ∉ statuses (process_barge_in st t g).events)
    ∧ (∀ st r g, "Error" ∉ statuses (on_speech_detected st r g).events) := by
  refine ⟨?_, ?_, ?_, ?_, ?_, ?_⟩
  · intro st r g
    cases r <;> cases g <;>
      simp only [voiceCycle, cycleTryBody, isException] <;>
      split_ifs <;> simp_all
  · intro st r g
    rcases r with raw | _ | _ | _ <;> cases g <;>
      simp only [on_speech_detected, isException] <;>
      split_ifs <;>
      simp [exceptExceptionEscaped_eq_none]
  · intro st hT tA hL fe
    cases fe <;> simp [stop_chat, isException]
  · intro st r g e he hne
    rcases hcb : cycleTryBody st r g with ⟨st', evs, res⟩
    rw [hcb] at he
    simp only at he
    subst he
    simp only [voiceCycle, hcb]
    rcases e with _ | _ | _ | _
    · exact absurd rfl hne
    · simp [statuses, List.filterMap_append]
    · simp [statuses, isException, List.filterMap_append]
    · simp [statuses, isException, List.filterMap_append]
  · intro st t g
    exact barge_in_no_error_status st t g
  · intro st r g
    rcases r with raw | _ | _ | _ <;> cases g <;>
      simp only [on_speech_detected, isException] <;>
      split_ifs <;>
      first
        | (simp [statuses]; done)
        | (rw [statuses_append]
           simp only [List.mem_append, not_or]
           exact ⟨by decide, barge_in_no_error_status _ _ _⟩)

/-- Witness for the amended claim C6: the generation-failure case of the
normal cycle, where the caught failure is converted into an `Error`
status. -/
theorem claim_C6_amended_failures_caught_witness :
    (voiceCycle demoState (.ok "hello") .failure).escaped = none
    ∧ (on_speech_detected demoState (.ok "hello") .failure).escaped = none
    ∧ (stop_chat demoState true true true (some .otherError)).2.2 = none
    ∧ "Error" ∈ statuses (voiceCycle demoState (.ok "hello") .failure).events
    ∧ "Error" ∉
        statuses (process_barge_in demoState (normalize "hello") .failure).events :=
  ⟨claim_C6_amended_failures_caught.1 demoState (.ok "hello") .failure,
   claim_C6_amended_failures_caught.2.1 demoState (.ok "hello") .failure,
   claim_C6_amended_failures_caught.2.2.1 demoState true true true (some .otherError),
   claim_C6_amended_failures_caught.2.2.2.1 demoState (.ok "hello") .failure
     .generationError rfl (by decide),
   claim_C6_amended_failures_caught.2.2.2.2.1 demoState (normalize "hello") .failure⟩

/-- Witness for claim C2 at the concrete input `"emo tell me a joke"`. -/
theorem claim_C2_persona_switch_strips_keyword_witness :
    personaSwitch "EMUSINIO" "emo tell me a joke".toList =
      { persona := "EMO", text := stripText ("emo tell me a joke".toList.drop 3),
        branch := some .emoBranch }
    ∧ replaceFirstEmpty "emo tell me a joke".toList "emo".toList =
        "emo tell me a joke".toList.drop 3 :=
  (claim_C2_persona_switch_strips_keyword "EMUSINIO" "emo tell me a joke".toList).1
    (by decide)

/-- Claim C3 is false on the code: `"emusinio"` does not start with
`"emo"` (third characters `u` and `o` differ), so on the input
`"emusinio hello"` the `emo` branch does not fire; the `emusinio` branch
fires, the persona becomes `EMUSINIO` (not `EMO`), and the remaining text
is `"hello"` (not `"usinio hello"`). -/
theorem claim_C3_counterexample :
    "emo".toList.isPrefixOf "emusinio".toList = false
    ∧ (personaSwitch "EMO" (normalize "emusinio hello")).persona = "EMUSINIO"
    ∧ (personaSwitch "EMO" (normalize "emusinio hello")).persona ≠ "EMO"
    ∧ (personaSwitch "EMO" (normalize "emusinio hello")).text = "hello".toList
    ∧ (personaSwitch "EMO" (normalize "emusinio hello")).text ≠ "usinio hello".toList
    ∧ (personaSwitch "EMO" (normalize "emusinio hello")).branch =
        some .emusinioBranch := by
  decide

/-- Claim C3 (amended): for every utterance beginning with `emusinio`, the
`emo` branch does not fire (since `"emusinio"` does not start with
`"emo"`); instead the `emusinio` branch — which is reachable — sets the
persona to `EMUSINIO`, strips the whole keyword `emusinio`, and leaves the
rest of the text (trimmed). -/
theorem claim_C3_amended (p : String) (s : Text) :
    "emo".toList.isPrefixOf ("emusinio".toList ++ s) = false
    ∧ personaSwitch p ("emusinio".toList ++ s) =
        { persona := "EMUSINIO", text := stripText s,
          branch := some .emusinioBranch }
    ∧ (personaSwitch "EMO" "emusinio hi".toList).branch = some .emusinioBranch := by
  have hp : "emusinio".toList.isPrefixOf ("emusinio".toList ++ s) = true := by
    rw [List.isPrefixOf_iff_prefix]
    exact List.prefix_append _ _
  have hd : ("emusinio".toList ++ s).drop 8 = s := rfl
  refine ⟨emo_not_prefixOf_of_emusinio _ hp, ?_, by decide⟩
  rw [personaSwitch_emusinio p _ hp, hd]

/-- Claim C8: from every state, `stop_chat` sets `running = false`, raises
the InterruptToken, waits with a bounded (1 s) timeout for the session
thread and any playback thread — with `running = false` set first, the
interrupt raised before any join, and every join before the farewell — then
plays the fixed farewell as its last step, and never fails (the farewell's
`try/except` swallows TTS errors).  With `running = false` the voice loop
emits its final `Idle` status, so the session reaches `Idle`.  Called with
no active session, it is a no-op beyond the farewell: it emits no status,
starts no playback, calls no generator, and only sets the interrupt flag. -/
theorem claim_C8_stop_drives_session_to_idle (st : BackendState)
    (hT tA hL : Bool) (fe : Option Exn) :
    ((stop_chat st hT tA hL fe).1.running = false
      ∧ (stop_chat st hT tA hL fe).1.interruptSet = true
      ∧ (stop_chat st hT tA hL fe).1.speaking = false
      ∧ (stop_chat st hT tA hL fe).2.2 = none)
    ∧ ((stop_chat_events hT tA hL).head? = some .setRunningFalse
      ∧ (stop_chat_events hT tA hL).getLast? = some .farewellTTS
      ∧ Event.setInterrupt ∈ stop_chat_events hT tA hL
      ∧ joinsHaveTimeout (stop_chat_events hT tA hL) = true
      ∧ (Event.joinSessionThread 1000 ∈ stop_chat_events hT tA hL →
          List.indexOf Event.setInterrupt (stop_chat_events hT tA hL) <
            List.indexOf (Event.joinSessionThread 1000) (stop_chat_events hT tA hL)
          ∧ List.indexOf (Event.joinSessionThread 1000) (stop_chat_events hT tA hL) <
              List.indexOf Event.farewellTTS (stop_chat_events hT tA hL))
      ∧ (Event.joinTTS (some 1000) ∈ stop_chat_events hT tA hL →
          List.indexOf Event.setInterrupt (stop_chat_events hT tA hL) <
            List.indexOf (Event.joinTTS (some 1000)) (stop_chat_events hT tA hL)
          ∧ List.indexOf (Event.joinTTS (some 1000)) (stop_chat_events hT tA hL) <
              List.indexOf Event.farewellTTS (stop_chat_events hT tA hL)))
    ∧ (statuses (stop_chat_events hT tA hL) = []
      ∧ startsPlayback (stop_chat_events hT tA hL) = false
      ∧ callsGenerator (stop_chat_events hT tA hL) = false
      ∧ Event.farewellTTS ∈ stop_chat_events hT tA hL)
    ∧ (st.running = false ∧ st.speaking = false →
        (stop_chat st hT tA hL fe).1 = { st with interruptSet := true })
    ∧ (∀ ins, voice_loop (stop_chat st hT tA hL fe).1 ins =
        ((stop_chat st hT tA hL fe).1, [.status "Idle"])) := by
  refine ⟨?_, ?_, ?_, ?_, ?_⟩
  · cases fe <;> simp [stop_chat, isException]
  · cases hT <;> cases tA <;> cases hL <;> decide
  · cases hT <;> cases tA <;> cases hL <;> decide
  · rintro ⟨h1, h2⟩
    cases fe <;> cases st <;> simp_all [stop_chat, isException]
  · intro ins
    refine voice_loop_not_running _ ?_ ins
    cases fe <;> simp [stop_chat, isException]

/-- Witness for claim C8: `stop_chat` called with no active session on the
concrete idle state is a no-op beyond the farewell, and the loop postlude
reaches `Idle`. -/
theorem claim_C8_stop_drives_session_to_idle_witness :
    (stop_chat idleState false false false none).1 =
      { idleState with interruptSet := true }
    ∧ ∀ ins, voice_loop (stop_chat idleState false false false none).1 ins =
        ((stop_chat idleState false false false none).1, [.status "Idle"]) :=
  ⟨(claim_C8_stop_drives_session_to_idle idleState false false false none).2.2.2.1
      ⟨rfl, rfl⟩,
   (claim_C8_stop_drives_session_to_idle idleState false false false none).2.2.2.2⟩

/-- Claim C9: in every playback the InterruptToken is cleared exactly once,
as the very first step of the playback (`speakEvents` starts with the
clear), strictly before that playback's barge-in monitor starts (index 3);
and in every trace the engine produces — any iteration of the voice loop,
any barge-in callback, the whole loop, and `stop_chat` — a clear occurs
only as the first step of a playback block, never mid-flight and never
between one playback's end and the next playback's start, so a raised
interrupt stays observable until the next playback begins. -/
theorem claim_C9_clear_once_before_monitor (t : Text) :
    countClear (speakEvents t) = 1
    ∧ (speakEvents t).head? = some .clearInterrupt
    ∧ (speakEvents t).get? 3 = some .startMonitor
    ∧ (∀ st r g, ClearDisciplined (voiceCycle st r g).events)
    ∧ (∀ st u g, ClearDisciplined (process_barge_in st u g).events)
    ∧ (∀ st r g, ClearDisciplined (on_speech_detected st r g).events)
    ∧ (∀ st ins, ClearDisciplined (voice_loop st ins).2)
    ∧ (∀ hT tA hL, countClear (stop_chat_events hT tA hL) = 0) := by
  refine ⟨rfl, rfl, rfl, voiceCycle_clear_disciplined,
    process_barge_in_clear_disciplined, on_speech_detected_clear_disciplined,
    voice_loop_clear_disciplined, ?_⟩
  intro hT tA hL
  cases hT <;> cases tA <;> cases hL <;> decide

end EMOBridge
